import Mathlib

/-!
Verification of the BodyCart backend scoring pipeline.

This file is a shallow embedding, in Lean 4, of the aggregation and scoring
pipeline of the BodyCart browser-extension backend (a FastAPI service that
scores e-commerce and marketplace listings for scam risk).  Pure Python
functions become Lean functions; machine floats are modelled as exact
rationals (the thresholds compared against are far from any rounding
boundary); fallible collaborator calls (the LLM layer, the Tavily search
client) are modelled at their interface as `Option`-typed inputs, exactly as
the call sites consume them (`call_structured_llm` returns `None` on any
internal failure, `call_llm` returns the empty string).

Python `dict` outcomes become per-agent structures; detail keys that no
theorem mentions are omitted from the structures, every field that is kept is
translated from the source.  String fields reproduce the source literals
byte-for-byte (two source files, `ecommerce_guard.py` and
`price_comparison_agent.py`, contain double-encoded UTF-8 literals; those are
reproduced as they appear in the source).
-/

namespace BodyCart

/-! ## Data model (schemas.py) -/

/-- `Flag` from schemas.py: a severity-tagged user-facing observation.
`type` is one of "critical", "warning", "info". -/
structure Flag where
  type : String
  msg : String
deriving DecidableEq

/-- `MarketplaceSellerInfo` from schemas.py (the fields consumed by the
agents modelled here; every field is optional, defaulting to absent). -/
structure MarketplaceSellerInfo where
  name : Option String := none
  join_date : Option String := none
  location : Option String := none
  response_rate : Option String := none
  other_listings_count : Option Int := none
  listings_count : Option String := none
  followers_count : Option Int := none
  ratings_count : Option Int := none
  ratings_average : Option ℚ := none
  badges : List String := []
  strengths : List String := []
  profile_screenshot : Option String := none
deriving DecidableEq

/-- `MarketplaceListingInfo` from schemas.py. -/
structure MarketplaceListingInfo where
  title : Option String := none
  price : Option String := none
  description : Option String := none
  condition : Option String := none
  location : Option String := none
  posted_date : Option String := none
  image_count : Option Int := none
deriving DecidableEq

/-- `MarketplaceRequest` from schemas.py (fields consumed by the modelled
agents). -/
structure MarketplaceRequest where
  url : String := ""
  listing : Option MarketplaceListingInfo := none
  seller : Option MarketplaceSellerInfo := none
  screenshot_base64 : Option String := none
  listing_images : List String := []
deriving DecidableEq

/-! ## String helpers mirroring the Python primitives used by the agents -/

/-- Python whitespace as used by `str.strip` / `\s` on the ASCII range. -/
def isPySpace (c : Char) : Bool :=
  c = ' ' || c = '\t' || c = '\n' || c = '\x0d' || c = '\x0b' || c = '\x0c'

/-- Character-list prefix test (`needle` begins `hay`). -/
def startsWithChars : List Char → List Char → Bool
  | [], _ => true
  | _ :: _, [] => false
  | p :: ps, c :: cs => p = c && startsWithChars ps cs

/-- Character-list substring test, mirroring Python's `needle in hay`. -/
def infixChars (needle : List Char) : List Char → Bool
  | [] => startsWithChars needle []
  | c :: cs => startsWithChars needle (c :: cs) || infixChars needle cs

/-- Python's `needle in hay` on strings. -/
def strContains (hay needle : String) : Bool :=
  infixChars needle.toList hay.toList

/-- Python's `str.lower` (ASCII range, which covers every use below). -/
def pyLower (s : String) : String := ⟨s.toList.map Char.toLower⟩

/-- Python's `str.upper` (ASCII range). -/
def pyUpper (s : String) : String := ⟨s.toList.map Char.toUpper⟩

/-- Python's `str.strip` with no argument. -/
def pyStrip (s : String) : String :=
  ⟨((s.toList.dropWhile isPySpace).reverse.dropWhile isPySpace).reverse⟩

/-- `bool(s.strip())` is false, i.e. `s` is empty or whitespace-only. -/
def pyStripEmpty (s : String) : Bool := s.toList.all isPySpace

/-- Value of a digit list read in base 10. -/
def digitsToNat (ds : List Char) : Nat :=
  ds.foldl (fun a c => a * 10 + (c.toNat - 48)) 0

/-- Leading run of digit characters. -/
def leadingDigits : List Char → List Char
  | [] => []
  | c :: cs => if c.isDigit then c :: leadingDigits cs else []

/-- First maximal digit run, as a number: Python's
`re.search(r'(\d+)', s)` followed by `int(...)`. -/
def firstNumber : List Char → Option Nat
  | [] => none
  | c :: cs => if c.isDigit then some (digitsToNat (c :: leadingDigits cs))
               else firstNumber cs

/-- Length of the leading digit run. -/
def digitRunLen : List Char → Nat
  | [] => 0
  | c :: cs => if c.isDigit then 1 + digitRunLen cs else 0

/-- Python's `re.search(r'\d{4,}', s)` as a Boolean: some position starts a
run of at least four digits. -/
def hasFourDigitRun : List Char → Bool
  | [] => false
  | c :: cs => (4 ≤ digitRunLen (c :: cs)) || hasFourDigitRun cs

/-- Match of `\((\d+)\)` anchored at the head of the list. -/
def parenNumAt : List Char → Option Nat
  | '(' :: rest =>
    let ds := leadingDigits rest
    if ds.isEmpty then none
    else match rest.drop ds.length with
      | ')' :: _ => some (digitsToNat ds)
      | _ => none
  | _ => none

/-- Python's `re.search(r'\((\d+)\)', s)`: first parenthesised number. -/
def firstParenNum : List Char → Option Nat
  | [] => none
  | c :: cs => match parenNumAt (c :: cs) with
    | some n => some n
    | none => firstParenNum cs

/-- Python's `float(s)` restricted to strings of digits and dots (the only
inputs it receives below, after filtering): it succeeds exactly when there is
at most one dot and at least one digit. -/
def pyFloatDigitsDots (cs : List Char) : Option ℚ :=
  if 1 < cs.count '.' then none
  else if cs.all (fun c => c = '.') then none
  else
    let intPart := cs.takeWhile (fun c => c ≠ '.')
    let fracPart := (cs.dropWhile (fun c => c ≠ '.')).drop 1
    some ((digitsToNat intPart : ℚ) + (digitsToNat fracPart : ℚ) / ((10 : ℚ) ^ fracPart.length))

/-! ## Field parsers (marketplace_agents.py, lines 21-90) -/

/-- Head match of `(19|20)\d{2}`. -/
def joinYearAt : List Char → Option Nat
  | a :: b :: c :: d :: _ =>
    if ((a = '1' && b = '9') || (a = '2' && b = '0')) && c.isDigit && d.isDigit then
      some (digitsToNat [a, b, c, d])
    else none
  | _ => none

/-- Scan for the first match of `(19|20)\d{2}`. -/
def joinYearScan : List Char → Option Nat
  | [] => none
  | c :: cs => match joinYearAt (c :: cs) with
    | some y => some y
    | none => joinYearScan cs

/-- `parse_join_year` from marketplace_agents.py: extract a 4-digit year
starting with 19 or 20; `None`/empty input yields no year. -/
def parse_join_year (join_date : Option String) : Option Nat :=
  match join_date with
  | none => none
  | some s => joinYearScan s.toList

/-- `parse_price` from marketplace_agents.py: `'free'`/`'gratis'` substrings
map to 0; otherwise every character except digits and dots is removed and the
remainder is read as a Python float (so a comma is a stripped separator but a
dot stays a decimal point). -/
def parse_price (price_str : Option String) : Option ℚ :=
  match price_str with
  | none => none
  | some s =>
    if s = "" then none
    else
      let lower := pyLower s
      if strContains lower "free" || strContains lower "gratis" then some 0
      else pyFloatDigitsDots (s.toList.filter (fun c => c.isDigit || c = '.'))

/-- `parse_listings_count` from marketplace_agents.py. -/
def parse_listings_count (listings_str : Option String) : Option Nat :=
  match listings_str with
  | none => none
  | some s => if s = "" then none else firstNumber s.toList

/-! ## Number formatting mirroring the Python f-string formats used in flag
messages (`format(x, ',.0f')`, `format(x, '.1f')`, `format(n, ',')`) -/

/-- Round half to even (Python `round` / `format(..., '.0f')` semantics). -/
def roundHalfEvenQ (q : ℚ) : Int :=
  let f := ⌊q⌋
  let r := q - (f : ℚ)
  if r < 1/2 then f
  else if 1/2 < r then f + 1
  else if f % 2 = 0 then f else f + 1

/-- Insert a comma after every three characters of a reversed digit list. -/
def groupRevDigits : List Char → List Char
  | d1 :: d2 :: d3 :: d4 :: rest => d1 :: d2 :: d3 :: ',' :: groupRevDigits (d4 :: rest)
  | l => l

/-- Python `format(n, ',')` for a natural number: thousands separated by commas. -/
def commaGroup (n : Nat) : String :=
  ⟨(groupRevDigits (toString n).toList.reverse).reverse⟩

/-- Python `format(q, ',.0f')` (for the non-negative values it receives here). -/
def fmtComma0 (q : ℚ) : String := commaGroup (roundHalfEvenQ q).toNat

/-- Python `format(q, '.1f')` (for the non-negative values it receives here). -/
def fmt1 (q : ℚ) : String :=
  let n := (roundHalfEvenQ (q * 10)).toNat
  toString (n / 10) ++ "." ++ toString (n % 10)

/-- Comma-grouped integer with the commas replaced by dots, as produced by
`f"...{n:,}".replace(",", ".")` in price_comparison_agent.py. -/
def dotGroup (n : Int) : String :=
  ⟨(commaGroup n.toNat).toList.map (fun c => if c = ',' then '.' else c)⟩

/-- Python `', '.join(l)`. -/
def joinComma (l : List String) : String := String.intercalate ", " l

/-! ## seller_trust_agent (marketplace_agents.py, lines 93-275)

The agent appends flags and accumulates `score_impact` through a fixed
sequence of independent field checks; each check below returns its flag list
and its score-impact contribution, and the agent concatenates/sums them in
source order, flooring the total at -30. -/

/-- Outcome record shared by the rule-based marketplace agents (the `details`
keys that no claim mentions are omitted). -/
structure SellerTrustOutcome where
  flags : List Flag
  score_impact : Int
deriving DecidableEq

/-- Account-age check (marketplace_agents.py lines 117-153): tiered flags for
a parsed join year; a missing or unparsable join date adds +10 with no flag. -/
def sellerJoinCheck (currentYear : Int) (join_date : Option String) : List Flag × Int :=
  match parse_join_year join_date with
  | some y =>
    let age : Int := currentYear - (y : Int)
    if age < 1 then
      ([Flag.mk "critical" ("🚨 Cuenta muy nueva (creada en " ++ toString y ++ ")")], 30)
    else if age < 2 then
      ([Flag.mk "warning" ("⚠️ Cuenta relativamente nueva (" ++ toString age ++ " año)")], 15)
    else if age < 3 then
      ([Flag.mk "info" ("Cuenta con " ++ toString age ++ " años en Facebook")], 5)
    else if age < 5 then
      ([Flag.mk "info" ("Cuenta establecida (" ++ toString age ++ " años en Facebook)")], 0)
    else if age < 10 then
      ([Flag.mk "info" ("✓ Cuenta veterana (" ++ toString age ++ " años en Facebook)")], -10)
    else
      ([Flag.mk "info" ("⭐ Cuenta muy antigua (" ++ toString age ++ "+ años en Facebook)")], -15)
  | none => ([], 10)

/-- Seller-name check (lines 156-162): many consecutive digits in the name. -/
def sellerNameCheck (name : Option String) : List Flag × Int :=
  match name with
  | some n =>
    if hasFourDigitRun n.toList then
      ([Flag.mk "warning" "Nombre de perfil contiene muchos números"], 5)
    else ([], 0)
  | none => ([], 0)

/-- Response-rate check (lines 164-167). -/
def sellerResponseCheck (response_rate : Option String) : List Flag × Int :=
  match response_rate with
  | some r =>
    if strContains (pyLower r) "hour" || strContains (pyLower r) "minute" then
      ([Flag.mk "info" ("Vendedor responde rápido: " ++ r)], 0)
    else ([], 0)
  | none => ([], 0)

/-- Legacy other-listings-count check (lines 170-176). -/
def sellerOtherListingsCheck (count : Option Int) : List Flag × Int :=
  match count with
  | some n =>
    if n = 0 then ([Flag.mk "warning" "Este es el único artículo del vendedor"], 5)
    else if 50 < n then
      ([Flag.mk "info" ("Vendedor activo con " ++ toString n ++ " publicaciones")], 0)
    else ([], 0)
  | none => ([], 0)

/-- Profile listings-count check on the free-text field (lines 183-194). -/
def sellerListingsCountCheck (listings_count : Option String) : List Flag × Int :=
  match listings_count with
  | some s =>
    if s = "" then ([], 0)
    else match firstNumber s.toList with
      | some n =>
        if 10 ≤ n then
          ([Flag.mk "info" ("Vendedor establecido con " ++ s ++ " publicaciones")], -5)
        else if n ≤ 2 then
          ([Flag.mk "warning" ("Vendedor con pocas publicaciones (" ++ s ++ ")")], 5)
        else ([], 0)
      | none => ([], 0)
  | none => ([], 0)

/-- Followers check (lines 197-204). -/
def sellerFollowersCheck (followers : Option Int) : List Flag × Int :=
  match followers with
  | some n =>
    if 50 ≤ n then ([Flag.mk "info" ("Vendedor con " ++ toString n ++ " seguidores")], -5)
    else if 10 ≤ n then ([Flag.mk "info" ("Vendedor con " ++ toString n ++ " seguidores")], 0)
    else ([], 0)
  | none => ([], 0)

/-- Ratings-count check (lines 206-216). -/
def sellerRatingsCountCheck (ratings : Option Int) : List Flag × Int :=
  match ratings with
  | some n =>
    if 10 ≤ n then ([Flag.mk "info" ("Vendedor con " ++ toString n ++ " calificaciones")], -10)
    else if 5 ≤ n then ([Flag.mk "info" ("Vendedor con " ++ toString n ++ " calificaciones")], -5)
    else if n = 0 then ([Flag.mk "warning" "Vendedor sin calificaciones"], 10)
    else ([], 0)
  | none => ([], 0)

/-- Ratings-average check (lines 219-229). -/
def sellerRatingsAvgCheck (avg : Option ℚ) : List Flag × Int :=
  match avg with
  | some r =>
    if 9/2 ≤ r then
      ([Flag.mk "info" ("Excelente calificación: " ++ fmt1 r ++ " estrellas ⭐")], -10)
    else if 4 ≤ r then
      ([Flag.mk "info" ("Buena calificación: " ++ fmt1 r ++ " estrellas")], -5)
    else if r < 3 then
      ([Flag.mk "critical" ("Calificación baja: " ++ fmt1 r ++ " estrellas")], 20)
    else ([], 0)
  | none => ([], 0)

/-- Per-badge classification (lines 234-244). -/
def badgeCheck (badge : String) : List Flag × Int :=
  let bl := pyLower badge
  if strContains bl "buena calificación" || strContains bl "good rating" then
    ([Flag.mk "info" ("🏆 Insignia: " ++ badge)], -10)
  else if strContains bl "responde rápido" || strContains bl "responds quickly" then
    ([Flag.mk "info" ("⚡ Insignia: " ++ badge)], -5)
  else if strContains bl "destacado" || strContains bl "top" then
    ([Flag.mk "info" "🌟 Vendedor destacado"], -15)
  else ([], 0)

/-- Badges check (lines 232-244): classify every badge in order. -/
def sellerBadgesCheck (badges : List String) : List Flag × Int :=
  badges.foldl (fun acc b => (acc.1 ++ (badgeCheck b).1, acc.2 + (badgeCheck b).2)) ([], 0)

/-- Strengths check (lines 247-262): sum the parenthesised counts. -/
def sellerStrengthsCheck (strengths : List String) : List Flag × Int :=
  if strengths.isEmpty then ([], 0)
  else
    let total := (strengths.map (fun s => ((firstParenNum s.toList).getD 0 : Int))).sum
    if 20 ≤ total then
      ([Flag.mk "info" ("Vendedor con " ++ toString total ++ "+ reseñas positivas en aspectos clave")], -10)
    else if 5 ≤ total then
      ([Flag.mk "info" ("Fortalezas del vendedor: " ++ joinComma (strengths.take 3))], -5)
    else ([], 0)

/-- `seller_trust_agent` from marketplace_agents.py: with no seller data it
returns no flags and `score_impact = 15`; otherwise it runs the checks above
in source order, concatenating flags and summing impacts, and floors the
total at -30.  `currentYear` stands for `datetime.now().year`. -/
def seller_trust_agent (currentYear : Int) (request : MarketplaceRequest) : SellerTrustOutcome :=
  match request.seller with
  | none => ⟨[], 15⟩
  | some seller =>
    let parts : List (List Flag × Int) :=
      [sellerJoinCheck currentYear seller.join_date,
       sellerNameCheck seller.name,
       sellerResponseCheck seller.response_rate,
       sellerOtherListingsCheck seller.other_listings_count,
       sellerListingsCountCheck seller.listings_count,
       sellerFollowersCheck seller.followers_count,
       sellerRatingsCountCheck seller.ratings_count,
       sellerRatingsAvgCheck seller.ratings_average,
       sellerBadgesCheck seller.badges,
       sellerStrengthsCheck seller.strengths]
    let flags := (parts.map (fun p => p.1)).flatten
    let impact := (parts.map (fun p => p.2)).sum
    ⟨flags, max impact (-30)⟩

/-! ## price_analysis_agent (marketplace_agents.py, lines 343-551)

Prices are modelled as exact rationals; the Python float thresholds
`min * 0.3`, `min * 0.5`, `min * 0.7`, `max * 1.1` are written as exact
products (every concrete comparison the table can produce is far from the
float rounding error of these products, so the branch taken is the same). -/

/-- `MARKET_PRICE_RANGES` from marketplace_agents.py: reference
product-name → (min, max) market price ranges, in declaration order. -/
def MARKET_PRICE_RANGES : List (String × ℚ × ℚ) :=
  [("iphone 15 pro max", 900, 1400),
   ("iphone 15 pro", 800, 1200),
   ("iphone 15", 600, 1000),
   ("iphone 14 pro max", 700, 1100),
   ("iphone 14 pro", 600, 1000),
   ("iphone 14", 500, 800),
   ("iphone 13", 400, 700),
   ("iphone 12", 300, 500),
   ("iphone 11", 200, 400),
   ("samsung galaxy s24", 600, 1000),
   ("samsung galaxy s23", 500, 900),
   ("samsung galaxy s22", 400, 700),
   ("macbook pro 16", 1500, 3500),
   ("macbook pro 14", 1200, 3000),
   ("macbook pro 13", 800, 2000),
   ("macbook air m2", 800, 1500),
   ("macbook air m1", 600, 1200),
   ("macbook air", 500, 1500),
   ("imac", 800, 2500),
   ("ipad pro", 500, 1500),
   ("ipad air", 400, 900),
   ("ipad", 250, 600),
   ("ps5", 350, 600),
   ("playstation 5", 350, 600),
   ("xbox series x", 350, 550),
   ("xbox series s", 200, 350),
   ("nintendo switch oled", 280, 400),
   ("nintendo switch", 200, 350),
   ("steam deck", 350, 700),
   ("rtx 4090", 1500, 2500),
   ("rtx 4080", 900, 1500),
   ("rtx 4070", 500, 800),
   ("rtx 3080", 400, 800),
   ("rtx 3070", 300, 600),
   ("rtx 3060", 200, 400),
   ("airpods pro", 150, 280),
   ("airpods max", 350, 600),
   ("apple watch ultra", 500, 900),
   ("apple watch series 9", 300, 500),
   ("apple watch", 150, 500)]

/-- `find_product_match` from marketplace_agents.py: keys sorted longest
first (Python's stable `sorted(..., key=len, reverse=True)`), first key that
is a substring of the lowercased title wins. -/
def find_product_match (title : String) : Option (String × ℚ × ℚ) :=
  let title_lower := pyLower title
  let sorted_products :=
    (MARKET_PRICE_RANGES.map (fun e => e.1)).insertionSort
      (fun a b => b.length ≤ a.length)
  match sorted_products.find? (fun p => strContains title_lower p) with
  | some p => MARKET_PRICE_RANGES.find? (fun e => e.1 = p)
  | none => none

/-- One classified tier of the matched-product price analysis: the flag it
emits, its score-impact delta, and the `price_tier` detail string. -/
structure PriceClass where
  flag : Flag
  impact : Int
  tier : String
deriving DecidableEq

/-- The matched-product branch of `price_analysis_agent` (lines 445-511):
nested threshold comparison of the listing price against the market range. -/
def matchedPriceClass (product_name : String) (min_market max_market price : ℚ) : PriceClass :=
  if price = 0 then
    ⟨Flag.mk "critical" ("🚨 " ++ pyUpper product_name ++ " GRATIS - Muy probablemente estafa"),
     35, "scam"⟩
  else if price < min_market * (3/10) then
    ⟨Flag.mk "critical" ("🚨 Precio ridículamente bajo para " ++ product_name ++ ": $" ++
       fmtComma0 price ++ " (mercado: $" ++ fmtComma0 min_market ++ "-$" ++
       fmtComma0 max_market ++ ")"),
     30, "scam"⟩
  else if price < min_market * (1/2) then
    ⟨Flag.mk "critical" ("⚠️ Precio muy sospechoso para " ++ product_name ++ ": $" ++
       fmtComma0 price ++ " (mercado: $" ++ fmtComma0 min_market ++ "-$" ++
       fmtComma0 max_market ++ ")"),
     20, "very_suspicious"⟩
  else if price < min_market * (7/10) then
    ⟨Flag.mk "warning" ("Precio bajo para " ++ product_name ++ ": $" ++
       fmtComma0 price ++ " (mercado: $" ++ fmtComma0 min_market ++ "-$" ++
       fmtComma0 max_market ++ ")"),
     10, "suspicious"⟩
  else if price ≤ max_market * (11/10) then
    ⟨Flag.mk "info" ("✓ Precio razonable para " ++ product_name ++ ": $" ++ fmtComma0 price),
     -5, "fair"⟩
  else
    ⟨Flag.mk "info" ("Precio por encima del mercado para " ++ product_name ++ ": $" ++
       fmtComma0 price),
     0, "high"⟩

/-- Severity rank of the matched-product price tiers, from the least
penalising classification ("high", i.e. above market) up to "scam".  This is
the ladder order in which the agent's thresholds produce the tiers as the
price decreases. -/
def tierSeverity (tier : String) : Nat :=
  if tier = "scam" then 4
  else if tier = "very_suspicious" then 3
  else if tier = "suspicious" then 2
  else if tier = "fair" then 1
  else 0

/-- Outcome of `price_analysis_agent` (flags, score impact, and the
`price_tier` / `matched_product` detail keys the claims mention). -/
structure PriceAnalysisOutcome where
  flags : List Flag
  score_impact : Int
  price_tier : Option String
  matched_product : Option String
deriving DecidableEq

/-- `price_analysis_agent` from marketplace_agents.py: early return when the
listing or its price display string is missing or empty, or when the price
does not parse; otherwise classify against a matched product's market range,
falling back to a generic free/very-low/unknown classification.  (The
`details`-only "suspicious pricing patterns" block of lines 533-545 writes no
flag and no score impact and is omitted.) -/
def price_analysis_agent (request : MarketplaceRequest) : PriceAnalysisOutcome :=
  match request.listing with
  | none => ⟨[], 0, none, none⟩
  | some listing =>
    if listing.price.getD "" = "" then ⟨[], 0, none, none⟩
    else
      let title := listing.title.getD ""
      match parse_price listing.price with
      | none => ⟨[], 0, none, none⟩
      | some price =>
        match find_product_match title with
        | some (product_name, min_market, max_market) =>
          let c := matchedPriceClass product_name min_market max_market price
          ⟨[c.flag], c.impact, some c.tier, some product_name⟩
        | none =>
          if price = 0 then
            ⟨[Flag.mk "warning" "Artículo gratis - verifica legitimidad"], 10, some "free", none⟩
          else if price < 10 then
            ⟨[Flag.mk "info" "Precio muy bajo - verifica que sea real"], 5, some "very_low", none⟩
          else
            ⟨[], 0, some "unknown", none⟩

/-! ## A small regular-expression engine

description_quality_agent matches a fixed set of Python regular expressions
against the lowercased description.  The patterns use literals, character
classes, `?`, `*`, `+`, alternation and word boundaries; the engine below
supports exactly these.  `rxSearch` mirrors `re.search`: does any position of
the string start a match. -/

/-- Regular-expression syntax: empty match, single-character class,
concatenation, alternation, Kleene star, and the zero-width word boundary. -/
inductive Rx where
  | eps : Rx
  | cls : (Char → Bool) → Rx
  | seq : Rx → Rx → Rx
  | alt : Rx → Rx → Rx
  | star : Rx → Rx
  | wb : Rx

/-- Python's `\w` for the character set appearing in the scanned agents
(ASCII word characters plus the accented Spanish letters). -/
def isWordChar (c : Char) : Bool :=
  c.isAlphanum || c = '_' ||
    (['á', 'é', 'í', 'ó', 'ú', 'ñ', 'ü', 'Á', 'É', 'Í', 'Ó', 'Ú', 'Ñ', 'Ü'].contains c)

/-- Iterate a one-step matcher as a Kleene star: each round may stop, or
consume a strictly shorter suffix and continue.  `fuel` bounds the number of
rounds; called with more fuel than the string is long, no match is missed
(every continued round consumes at least one character). -/
def rxStarLoop (step : Option Char → List Char → List (Option Char × List Char)) :
    Nat → Option Char → List Char → List (Option Char × List Char)
  | 0, prev, s => [(prev, s)]
  | fuel + 1, prev, s =>
    (prev, s) :: (step prev s).flatMap
      (fun pr => if pr.2.length < s.length then rxStarLoop step fuel pr.1 pr.2 else [])

/-- All ways a pattern can consume a prefix of `s`: each result is the last
character consumed so far (for word boundaries) and the remaining suffix. -/
def rxRun (fuel : Nat) : Rx → Option Char → List Char → List (Option Char × List Char)
  | .eps, prev, s => [(prev, s)]
  | .cls p, _prev, s =>
    match s with
    | [] => []
    | c :: rest => if p c then [(some c, rest)] else []
  | .seq a b, prev, s =>
    (rxRun fuel a prev s).flatMap (fun pr => rxRun fuel b pr.1 pr.2)
  | .alt a b, prev, s => rxRun fuel a prev s ++ rxRun fuel b prev s
  | .star a, prev, s => rxStarLoop (rxRun fuel a) fuel prev s
  | .wb, prev, s =>
    let before := match prev with | none => false | some c => isWordChar c
    let after := match s with | [] => false | c :: _ => isWordChar c
    if before ≠ after then [(prev, s)] else []

/-- Does the pattern match starting at some position of the suffix, given the
character immediately before it? -/
def rxSearchFrom (r : Rx) : Option Char → List Char → Bool
  | prev, [] => !(rxRun 1 r prev []).isEmpty
  | prev, c :: t =>
    !(rxRun (t.length + 2) r prev (c :: t)).isEmpty || rxSearchFrom r (some c) t

/-- Python's `re.search(pattern, s) is not None`. -/
def rxSearch (r : Rx) (s : String) : Bool := rxSearchFrom r none s.toList

/-- Single literal character. -/
def rchar (c : Char) : Rx := .cls (fun x => x = c)

/-- Literal string. -/
def rlit (s : String) : Rx := s.toList.foldr (fun c acc => .seq (rchar c) acc) .eps

/-- n-ary alternation. -/
def ralts : List Rx → Rx
  | [] => .eps
  | [r] => r
  | r :: rs => .alt r (ralts rs)

/-- Alternation of literal strings. -/
def rlits (ss : List String) : Rx := ralts (ss.map rlit)

/-- `r?`. -/
def ropt (r : Rx) : Rx := .alt r .eps

/-- `r+`. -/
def rplus (r : Rx) : Rx := .seq r (.star r)

/-- Sequence of patterns. -/
def rseqs : List Rx → Rx
  | [] => .eps
  | r :: rs => .seq r (rseqs rs)

/-- `\d`. -/
def rdigit : Rx := .cls Char.isDigit

/-- `\s`. -/
def rspace : Rx := .cls isPySpace

/-- `\s*`. -/
def rws0 : Rx := .star rspace

/-- `\s+`. -/
def rws1 : Rx := rplus rspace

/-- `\w`. -/
def rword : Rx := .cls isWordChar

/-! ## description_quality_agent (marketplace_agents.py, lines 861-980) -/

/-- The four `vague_patterns` of lines 924-929, with their flag messages. -/
def vaguePatterns : List (Rx × String) :=
  [(rseqs [rlit "contact", ropt (rchar 'a'), ropt (rchar 'r'), rws0,
           rlits ["para", "for"], rws0,
           ralts [rlit "más", rlit "more",
                  rseqs [rchar 'm', .cls (fun c => c = 'a' || c = 'á'), rchar 's']],
           rws0, rlits ["info", "información", "details"]],
    "Información vaga: \"contactar para más info\""),
   (rseqs [rlit "pregunt", .cls (fun c => c = 'a' || c = 'e'), ropt (rchar 'r'),
           rws0, rlits ["por", "for"]],
    "Información vaga: \"preguntar por detalles\""),
   (rseqs [rlit "no", rws1, rlit "pregunta", ropt (rchar 's'), rws1,
           rlit "tonta", ropt (rchar 's')],
    "Lenguaje hostil hacia compradores"),
   (rseqs [rlit "solo", rws1, rlit "interesado", ropt (rchar 's')],
    "Filtro de compradores")]

/-- The seven `specificity_patterns` of lines 937-945, with their detail
type labels. -/
def specificityPatterns : List (Rx × String) :=
  [(rseqs [.wb, rplus rdigit, rws0,
           ralts [rlit "gb", rlit "tb", rlit "inch",
                  rseqs [rlit "pulgada", ropt (rchar 's')],
                  rlit "cm", rlit "mm", rlit "kg", rlit "lb"], .wb],
    "specs"),
   (rseqs [.wb, rlits ["modelo", "model", "serie", "series"], rws0,
           ropt (rchar ':'), rws0, rplus rword],
    "model"),
   (rseqs [.wb, rlits ["marca", "brand"], rws0, ropt (rchar ':'), rws0, rplus rword],
    "brand"),
   (rseqs [.wb, rdigit, rdigit, rdigit, rdigit, .wb], "year"),
   (rseqs [.wb, rlits ["original", "auténtico", "genuine", "authentic"], .wb],
    "authenticity"),
   (rseqs [.wb, ralts [rseqs [rlit "garant", .cls (fun c => c = 'i' || c = 'í'), rlit "a"],
                       rlit "warranty"], .wb],
    "warranty"),
   (rseqs [.wb, rlits ["factura", "receipt", "invoice"], .wb], "receipt")]

/-- Number of maximal runs of `!`/`?` of length at least two:
`len(re.findall(r'[!?]{2,}', s))`.  The first argument tracks the length of
the current run of `!`/`?` characters. -/
def punctRunsAux : Nat → List Char → Nat
  | run, [] => if 2 ≤ run then 1 else 0
  | run, c :: cs =>
    if c = '!' || c = '?' then punctRunsAux (run + 1) cs
    else (if 2 ≤ run then 1 else 0) + punctRunsAux 0 cs

/-- `punctuation_count` of line 915. -/
def punctRuns (cs : List Char) : Nat := punctRunsAux 0 cs

/-- Outcome of `description_quality_agent`: flags, score impact and the
`quality_score` detail (the remaining `details` keys are not mentioned by any
claim and are omitted). -/
structure DescQualityOutcome where
  flags : List Flag
  score_impact : Int
  quality_score : Int
deriving DecidableEq

/-- The non-empty-description path of `description_quality_agent`
(lines 893-980): length tiers, ALL-CAPS ratio, excessive punctuation, vague
and specificity patterns, and the derived 0-100 quality score (Python
`round`, i.e. half-to-even).  The title/description relevance computation of
lines 961-965 only writes a detail key and is omitted. -/
def descriptionQualityFull (description : String) : DescQualityOutcome :=
  let descLen := description.length
  let lenPart : List Flag × Int :=
    if descLen < 20 then
      ([Flag.mk "warning" "Descripción muy corta (menos de 20 caracteres)"], 10)
    else if descLen < 50 then ([], 5)
    else if 150 ≤ descLen then ([], -5)
    else ([], 0)
  let upperCount := (description.toList.filter Char.isUpper).length
  let capsPart : List Flag × Int :=
    if max descLen 1 < 2 * upperCount ∧ 20 < descLen then
      ([Flag.mk "warning" "Descripción mayormente en MAYÚSCULAS"], 5)
    else ([], 0)
  let punctImpact : Int := if 3 < punctRuns description.toList then 3 else 0
  let lowerDesc := pyLower description
  let vagueHits := vaguePatterns.filter (fun pr => rxSearch pr.1 lowerDesc)
  let vaguePart : List Flag × Int :=
    (vagueHits.map (fun pr => Flag.mk "info" pr.2), 2 * vagueHits.length)
  let specFound := (specificityPatterns.filter (fun pr => rxSearch pr.1 lowerDesc)).map
    (fun pr => pr.2)
  let specPart : List Flag × Int :=
    if 3 ≤ specFound.length then
      ([Flag.mk "info" ("Descripción con detalles específicos (" ++
          joinComma (specFound.take 3) ++ ")")], -5)
    else ([], 0)
  let score_impact := lenPart.2 + capsPart.2 + punctImpact + vaguePart.2 + specPart.2
  let quality : ℚ :=
    50 + min ((descLen : ℚ) / 5) 20 + 5 * (specFound.length : ℚ) - (score_impact : ℚ)
  ⟨lenPart.1 ++ capsPart.1 ++ vaguePart.1 ++ specPart.1,
   score_impact,
   roundHalfEvenQ (max 0 (min 100 quality))⟩

/-- The description string the agent works on:
`(listing.description if listing else "") or ""` of line 879. -/
def listingDescription (request : MarketplaceRequest) : String :=
  match request.listing with
  | some l => l.description.getD ""
  | none => ""

/-- `description_quality_agent` from marketplace_agents.py: an absent
listing, an absent description, or a whitespace-only description short-cuts
to a single warning flag, `score_impact = 15` and `quality_score = 0`
(lines 886-890); otherwise the full analysis runs. -/
def description_quality_agent (request : MarketplaceRequest) : DescQualityOutcome :=
  let description := listingDescription request
  if pyStripEmpty description then
    ⟨[Flag.mk "warning" "Publicación sin descripción"], 15, 0⟩
  else
    descriptionQualityFull description

/-! ## ecommerce_guard_agent (agents/ecommerce_guard.py, lines 212-317)

The single combined Capability Provider call (`check_full_security`) is the
external collaborator: on success it yields the three typed check results, on
any failure all three degrade to `None` (lines 245-250).  The agent's flag
and score computation over those results is embedded below.  (The message
literals of this source file contain double-encoded UTF-8; they are
reproduced exactly as they appear in the source.) -/

/-- Generic-profile agent outcome: the `flags` and `score_impact` keys read
by the `/analyze` aggregator. -/
structure GenericOutcome where
  flags : List Flag
  score_impact : Int
deriving DecidableEq

/-- `VisualSecurityCheck` from ecommerce_guard.py. -/
structure VisualSecurityCheck where
  phishing_detected : Bool
  phishing_reasoning : String
  purchase_button_present : Bool
  purchase_reasoning : String
deriving DecidableEq

/-- `HtmlSecurityCheck` from ecommerce_guard.py. -/
structure HtmlSecurityCheck where
  iframe_risk_detected : Bool
  iframe_reasoning : String
  csrf_risk_detected : Bool
  csrf_reasoning : String
deriving DecidableEq

/-- `PriceSecurityCheck` from ecommerce_guard.py. -/
structure PriceSecurityCheck where
  suspiciously_low_price : Bool
  reasoning : String
deriving DecidableEq

/-- `ecommerce_guard_agent` from ecommerce_guard.py (lines 254-317): the
flag/score computation over the collaborator's three check results.  On a
failed combined call all three inputs are `none`. -/
def ecommerce_guard_agent (visual_res : Option VisualSecurityCheck)
    (html_res : Option HtmlSecurityCheck) (price_res : Option PriceSecurityCheck) :
    GenericOutcome :=
  let purchase_active := match visual_res with
    | some v => v.purchase_button_present
    | none => false
  let visualPart : List Flag × Int := match visual_res with
    | some v =>
      let phishPart : List Flag × Int :=
        if v.phishing_detected then
          ([Flag.mk "critical" ("Posible Phishing detectado: " ++ v.phishing_reasoning)], 100)
        else ([Flag.mk "info" "No se detect√≥ phishing visual obvio."], 0)
      let buyFlags : List Flag :=
        if v.purchase_button_present then
          [Flag.mk "info" "Bot√≥n de compra detectado."]
        else [Flag.mk "warning" "No se detect√≥ bot√≥n de compra activo."]
      (phishPart.1 ++ buyFlags, phishPart.2)
    | none =>
      ([Flag.mk "warning" "No se pudo realizar an√°lisis visual (falta screenshot)."], 0)
  let iframePart : List Flag × Int := match html_res with
    | some h =>
      if h.iframe_risk_detected then
        ([Flag.mk (if purchase_active then "critical" else "warning")
            ("Riesgo de Iframe: " ++ h.iframe_reasoning)],
         if purchase_active then 20 else 10)
      else ([Flag.mk "info" "Iframes seguros o ausentes."], 0)
    | none => ([Flag.mk "info" "Iframes seguros o ausentes."], 0)
  let csrfPart : List Flag × Int := match html_res with
    | some h =>
      if h.csrf_risk_detected then
        ([Flag.mk (if purchase_active then "critical" else "warning")
            ("Falta protecci√≥n Anti-CSRF: " ++ h.csrf_reasoning)],
         if purchase_active then 20 else 10)
      else ([Flag.mk "info" "Formularios seguros o ausentes."], 0)
    | none => ([Flag.mk "info" "Formularios seguros o ausentes."], 0)
  let pricePart : List Flag × Int := match price_res with
    | some p =>
      if p.suspiciously_low_price then
        ([Flag.mk "critical" ("Precio sospechosamente bajo: " ++ p.reasoning)], 40)
      else ([Flag.mk "info" ("An√°lisis de precio: " ++ p.reasoning)], 0)
    | none => ([], 0)
  ⟨visualPart.1 ++ iframePart.1 ++ csrfPart.1 ++ pricePart.1,
   min 100 (visualPart.2 + iframePart.2 + csrfPart.2 + pricePart.2)⟩

/-! ## reviews_agent (agents/reviews_agent.py)

The three Tavily searches, the URL-level dedup and the LLM summarisation are
collaborators; what reaches the score computation of lines 388-448 is the
number of surviving unique reviews, the parsed summary (only consulted when
at least three reviews survive, otherwise the neutral defaults stand), the
Trustpilot rating string (guaranteed by the extraction regex of line 235 to
be a parseable `d.d`, carried here with its numeric value), and the
`', '.join(...)` of the distinct sources for the count flag's message. -/

/-- The fields of the parsed AI review summary consumed by the score step;
on a parse failure the call site falls back to sentiment 50 / "neutral". -/
structure ReviewSummaryData where
  sentiment : Int
  trust : String
deriving DecidableEq

/-- Score-and-flag computation of reviews_agent.py lines 388-448; the final
`score_impact` is `max(0, score_impact)` (line 448). -/
def reviewsScoreStep (reviewCount : Nat) (summary : Option ReviewSummaryData)
    (trustpilotRating : Option (String × ℚ)) (sourcesJoined : String) : GenericOutcome :=
  let sentimentTrust : Int × String :=
    if 3 ≤ reviewCount then
      match summary with
      | some d => (d.sentiment, d.trust)
      | none => (50, "neutral")
    else (50, "neutral")
  let sentiment := sentimentTrust.1
  let trust := sentimentTrust.2
  let sentimentPart : List Flag × Int :=
    if 70 ≤ sentiment then
      ([Flag.mk "info" ("✓ Reputación positiva en línea (puntuación: " ++
          toString sentiment ++ "/100)")], -5)
    else if sentiment ≤ 30 then
      ([Flag.mk "warning" ("⚠️ Reputación negativa en línea (puntuación: " ++
          toString sentiment ++ "/100)")], 10)
    else ([], 0)
  let tpFlags : List Flag := match trustpilotRating with
    | some r =>
      if 4 ≤ r.2 then [Flag.mk "info" ("✓ Trustpilot: " ++ r.1 ++ "/5 estrellas")]
      else if r.2 < 5/2 then
        [Flag.mk "warning" ("⚠️ Trustpilot: " ++ r.1 ++ "/5 estrellas (bajo)")]
      else []
    | none => []
  let trustFlags : List Flag :=
    if trust = "suspicious" then
      [Flag.mk "warning" "Las reseñas sugieren precaución con este sitio"]
    else if trust = "trustworthy" then
      [Flag.mk "info" "✓ Las reseñas sugieren que es un sitio confiable"]
    else []
  let countFlags : List Flag :=
    if reviewCount = 0 then
      [Flag.mk "warning" "No se encontraron reseñas en línea para este negocio"]
    else
      [Flag.mk "info" ("📊 Se encontraron " ++ toString reviewCount ++
        " reseñas de " ++ sourcesJoined)]
  ⟨sentimentPart.1 ++ tpFlags ++ trustFlags ++ countFlags, max 0 sentimentPart.2⟩

/-- `reviews_agent` from reviews_agent.py: a missing Tavily key returns the
"not checked" outcome (lines 67-71); an exception anywhere in the search
pipeline returns the neutral fallback of lines 473-479; otherwise the score
step above runs. -/
def reviews_agent (hasTavilyKey : Bool) (failed : Bool) (errText : String)
    (reviewCount : Nat) (summary : Option ReviewSummaryData)
    (trustpilotRating : Option (String × ℚ)) (sourcesJoined : String) : GenericOutcome :=
  if ¬hasTavilyKey then
    ⟨[Flag.mk "info" "Review search skipped (TAVILY_API_KEY not configured)"], 0⟩
  else if failed then
    ⟨[Flag.mk "info" ("No se pudo completar la búsqueda de reseñas: " ++ errText)], 0⟩
  else reviewsScoreStep reviewCount summary trustpilotRating sourcesJoined

/-! ## price_comparison_agent (agents/price_comparison_agent.py)

The Tavily search and per-result price extraction are collaborators; the
environment below carries the extracted competitor prices (`price_numeric` of
the surviving `found_prices` entries; re-parsing the agent's own
`$x.xxx.xxx`-formatted text recovers the same integer exactly) and the
current page's own extracted price.  This source file also contains
double-encoded UTF-8 literals, reproduced exactly. -/

/-- The collaborator inputs of one `price_comparison_agent` run. -/
structure PriceCompEnv where
  hasTavilyKey : Bool
  title : Option String
  requestFails : Bool
  foundPrices : List Int
  currentPrice : Option Int
deriving DecidableEq

/-- Characters of `hay` strictly before the first occurrence of `needle`. -/
def takeBeforeChars (needle : List Char) : List Char → List Char
  | [] => []
  | c :: cs =>
    if startsWithChars needle (c :: cs) then []
    else c :: takeBeforeChars needle cs

/-- `extract_product_name` from price_comparison_agent.py (lines 181-201):
cut the title at the first separator that occurs in it (in the fixed
separator order) and strip the first segment; no separator leaves the title
unchanged; no title yields the empty string. -/
def extract_product_name (title : Option String) : String :=
  match title with
  | none => ""
  | some t =>
    let seps : List String := [" | ", " - ", " – ", " — "]
    match seps.find? (fun sep => strContains t sep) with
    | some sep => pyStrip ⟨takeBeforeChars sep.toList t.toList⟩
    | none => t

/-- `price_comparison_agent` from price_comparison_agent.py (lines 204-402):
early neutral returns for a missing key, an unusable product name, or an
exception; otherwise the verdict comparison of lines 347-381.  `score_impact`
is initialised to 0 (line 338) and never modified on any path. -/
def price_comparison_agent (env : PriceCompEnv) : GenericOutcome :=
  if ¬env.hasTavilyKey then ⟨[], 0⟩
  else
    let product_name := extract_product_name env.title
    if product_name.length < 3 then ⟨[], 0⟩
    else if env.requestFails then ⟨[], 0⟩
    else
      let verdictFlags : List Flag :=
        match env.currentPrice, env.foundPrices with
        | some cur, p :: ps =>
          let competitor := p :: ps
          let minPrice := ps.foldl min p
          let avgPrice : ℚ := ((competitor.sum : ℚ)) / (competitor.length : ℚ)
          if (cur : ℚ) ≤ (minPrice : ℚ) * (21/20) then []
          else if (cur : ℚ) ≤ avgPrice * (11/10) then []
          else
            [Flag.mk "warning"
              ("‚ö†Ô∏è Precio alto: encontramos el mismo producto desde $"
                ++ dotGroup minPrice)]
        | _, _ => []
      let foundFlags : List Flag :=
        if env.foundPrices.isEmpty then []
        else
          [Flag.mk "info"
            ("üí° Encontramos este producto en otras " ++
              toString env.foundPrices.length ++ " tiendas. ¬°Compara precios!")]
      ⟨verdictFlags ++ foundFlags, 0⟩

/-! ## supplier_confidence_agent (marketplace_agents.py, lines 1164-1308)

The structured Capability Provider call is the collaborator: it returns a
validated `SupplierConfidenceResult` or `None` on any internal failure
(llm.py lines 108-168 catch every exception and return `None`), and the
agent itself converts `None` into the fixed neutral fallback — it never
raises to its caller. -/

/-- `SupplierConfidenceResult` from marketplace_agents.py (validation bounds
`confidence_score` to 0-100 on success; nothing below relies on that). -/
structure SupplierConfidenceResult where
  confidence_score : Int
  risk_level : String
  verdict_title : String
  verdict_message : String
  key_concerns : List String
  positive_signals : List String
deriving DecidableEq

/-- Outcome of the supplier-confidence agent: the keys the marketplace
aggregator reads (`flags`, `score`, `risk_level`, verdict strings). -/
structure SupplierOutcome where
  flags : List Flag
  score : Int
  risk_level : String
  verdict_title : String
  verdict_message : String
deriving DecidableEq

/-- `supplier_confidence_agent` result handling (lines 1275-1308): on a
structured result, concerns become warning flags and positives become info
flags and the LLM's score/tier/verdict pass through; on `None`, the fixed
neutral fallback. -/
def supplier_confidence_agent (llm_result : Option SupplierConfidenceResult) :
    SupplierOutcome :=
  match llm_result with
  | some r =>
    ⟨r.key_concerns.map (fun c => Flag.mk "warning" c) ++
       r.positive_signals.map (fun p => Flag.mk "info" ("✓ " ++ p)),
     r.confidence_score, r.risk_level, r.verdict_title, r.verdict_message⟩
  | none =>
    ⟨[Flag.mk "warning" "No se pudo completar el análisis de IA"],
     50, "suspicious", "Análisis incompleto",
     "No pudimos analizar completamente esta publicación. Procede con precaución."⟩

/-! ## The aggregator (main.py)

`analyze_page` and `analyze_marketplace` are embedded parametrically in the
agent outcomes they gather (`asyncio.gather` returns them in declaration
order); the score, risk tier, verdict and flag merging below follow main.py
lines 81-122 and 124-245. -/

/-- Final `AnalysisResult` fields the claims mention (risk level as its wire
string "safe" / "suspicious" / "dangerous"). -/
structure AnalysisResultM where
  score : Int
  risk_level : String
  verdict_title : String
  verdict_message : String
  flags : List Flag
deriving DecidableEq

/-- `_assess_risk` from main.py (lines 63-78): risk level and default
verdict title from the final score. -/
def assess_risk (score : Int) : String × String :=
  if 80 ≤ score then ("safe", "Todo limpio, procede a gastar tu dinero.")
  else if 50 ≤ score then ("suspicious", "Huele a humo... mira estos detalles.")
  else ("dangerous", "¡FUEGO! Saca tu tarjeta de aquí.")

/-- `analyze_page` from main.py (lines 81-122): the final score subtracts
only the guard and reviews impacts from 100 and clamps to [0,100]; the guard
outcome dict carries no `verdict_title`/`verdict_message` keys, so the
tier's default title and the default message are used; flags concatenate in
gather order guard, reviews, price-comparison. -/
def analyze_page (ai_res reviews_res price_res : GenericOutcome) : AnalysisResultM :=
  let final_score := max 0 (min 100 (100 - ai_res.score_impact - reviews_res.score_impact))
  let rd := assess_risk final_score
  ⟨final_score, rd.1, rd.2, "Revise los detalles a continuación.",
   ai_res.flags ++ reviews_res.flags ++ price_res.flags⟩

/-- Rule-based marketplace agent outcome as consumed by the aggregator. -/
structure MpOutcome where
  flags : List Flag
  score_impact : Int
deriving DecidableEq

/-- `analyze_marketplace` from main.py (lines 124-245), parametric in the
seven phase-1 outcomes (gather order of lines 143-159) and the phase-2
supplier outcome: the final score is the clamp of the supplier's score, the
risk level is the supplier's unless empty (falsy), and the flags are the
phase-1 concatenation followed by the supplier's flags. -/
def analyze_marketplace
    (seller_res seller_history_res pricing_res price_analysis_res image_res
      red_flags_res description_res : MpOutcome)
    (ai_res : SupplierOutcome) : AnalysisResultM :=
  let rule_based_flags :=
    seller_res.flags ++ seller_history_res.flags ++ pricing_res.flags ++
      price_analysis_res.flags ++ image_res.flags ++ red_flags_res.flags ++
      description_res.flags
  let final_score := max 0 (min 100 ai_res.score)
  let risk_level :=
    if ai_res.risk_level = "" then
      if 80 ≤ final_score then "safe"
      else if 50 ≤ final_score then "suspicious"
      else "dangerous"
    else ai_res.risk_level
  ⟨final_score, risk_level, ai_res.verdict_title, ai_res.verdict_message,
   rule_based_flags ++ ai_res.flags⟩

end BodyCart

section ScratchChecks

open BodyCart

example : parse_price (some "$1,500") = some 1500 := by
  simp +decide [parse_price, pyLower, strContains, infixChars, startsWithChars,
    pyFloatDigitsDots, digitsToNat]
example : parse_price (some "$1.500") = some (3/2) := by
  simp +decide [parse_price, pyLower, strContains, infixChars, startsWithChars,
    pyFloatDigitsDots, digitsToNat]
  norm_num
example : parse_price (some "Free") = some 0 := by
  simp +decide [parse_price, pyLower, strContains, infixChars, startsWithChars,
    pyFloatDigitsDots, digitsToNat]
example : parse_price (some "abc") = none := by
  simp +decide [parse_price, pyLower, strContains, infixChars, startsWithChars,
    pyFloatDigitsDots, digitsToNat]
example : parse_join_year (some "Se unió en 2019") = some 2019 := by decide
example : parse_listings_count (some "20+") = some 20 := by decide
example : seller_trust_agent 2025 {} = ⟨[], 15⟩ := by decide
example : sellerJoinCheck 2025 none = ([], 10) := by decide
example : commaGroup 1500000 = "1,500,000" := by decide
example : dotGroup 1500000 = "1.500.000" := by decide
example : fmt1 (9/2) = "4.5" := by norm_num [fmt1, roundHalfEvenQ]; decide
example : find_product_match "iPhone 15" = some ("iphone 15", 600, 1000) := by rfl
example : find_product_match "iPhone 15 Pro usado" = some ("iphone 15 pro", 800, 1200) := by rfl
example : find_product_match "bicicleta" = none := by rfl
example : (matchedPriceClass "iphone 15" 600 1000 120).tier = "scam" := by
  norm_num [matchedPriceClass]
example : (matchedPriceClass "iphone 15" 600 1000 800).impact = -5 := by
  norm_num [matchedPriceClass]
example : rxSearch (rseqs [.wb, rdigit, rdigit, rdigit, rdigit, .wb]) "año 2019 ok" = true := by
  decide
example : rxSearch (rseqs [.wb, rdigit, rdigit, rdigit, rdigit, .wb]) "a 20199 b" = false := by
  decide
example : rxSearch (vaguePatterns.get? 1 |>.map (fun p => p.1) |>.getD .eps)
    "preguntar por detalles" = true := by decide
example : description_quality_agent ({} : MarketplaceRequest) =
    (⟨[BodyCart.Flag.mk "warning" "Publicación sin descripción"], 15, 0⟩ : DescQualityOutcome) := by
  decide
example : description_quality_agent
    ({ listing := some { description := some "   " } } : MarketplaceRequest) =
    (⟨[BodyCart.Flag.mk "warning" "Publicación sin descripción"], 15, 0⟩ : DescQualityOutcome) := by
  decide

end ScratchChecks

namespace BodyCart

/-! ## Claim theorems -/

/-- Claim C1: for every request to either endpoint, the `score` field of the
returned `AnalysisResult` lies in [0,100], regardless of the magnitude or
sign of the individual agents' score impacts (including the holistic agent's
raw score in the marketplace profile). -/
theorem analyze_endpoints_score_bounded :
    ∀ (g r p : GenericOutcome) (s h pr pa im rf d : MpOutcome) (ai : SupplierOutcome),
      (0 ≤ (analyze_page g r p).score ∧ (analyze_page g r p).score ≤ 100) ∧
      (0 ≤ (analyze_marketplace s h pr pa im rf d ai).score ∧
        (analyze_marketplace s h pr pa im rf d ai).score ≤ 100) := by
  intro g r p s h pr pa im rf d ai
  refine ⟨⟨?_, ?_⟩, ⟨?_, ?_⟩⟩ <;> dsimp only [analyze_page, analyze_marketplace] <;> omega

/-- Claim C9: for every request, the flags list of the returned
`AnalysisResult` is the concatenation of the per-agent flag lists in the
fixed gather order of the profile — guard, reviews, price-comparison for the
generic endpoint; seller-trust, seller-history, pricing, price-analysis,
image-analysis, red-flags, description-quality, then supplier-confidence for
the marketplace endpoint — with each agent's own flags kept in their
insertion order. -/
theorem aggregator_flag_order :
    ∀ (g r p : GenericOutcome) (s h pr pa im rf d : MpOutcome) (ai : SupplierOutcome),
      (analyze_page g r p).flags = g.flags ++ r.flags ++ p.flags ∧
      (analyze_marketplace s h pr pa im rf d ai).flags =
        s.flags ++ h.flags ++ pr.flags ++ pa.flags ++ im.flags ++ rf.flags ++
          d.flags ++ ai.flags := by
  intro g r p s h pr pa im rf d ai
  exact ⟨rfl, rfl⟩

/-- Claim C4: when the Capability Provider's structured call yields no result
(`None`, as on any internal failure), the supplier-confidence agent returns
the fixed neutral fallback — score 50, risk level "suspicious", the
"Análisis incompleto" verdict, and exactly one warning flag — and, the
embedding being a total function, never raises to its caller; the seven
phase-1 outcomes pass through the marketplace aggregation unaffected (they
are inputs of the aggregator, not of the supplier agent, and reappear
verbatim as the prefix of the merged flag list while the final score and
tier come from the fallback alone). -/
theorem supplier_fallback_on_llm_failure :
    ∀ (s h p pa im rf d : MpOutcome),
      supplier_confidence_agent none =
        ⟨[Flag.mk "warning" "No se pudo completar el análisis de IA"], 50, "suspicious",
         "Análisis incompleto",
         "No pudimos analizar completamente esta publicación. Procede con precaución."⟩ ∧
      (supplier_confidence_agent none).flags.length = 1 ∧
      (analyze_marketplace s h p pa im rf d (supplier_confidence_agent none)).score = 50 ∧
      (analyze_marketplace s h p pa im rf d (supplier_confidence_agent none)).risk_level =
        "suspicious" ∧
      (analyze_marketplace s h p pa im rf d (supplier_confidence_agent none)).verdict_title =
        "Análisis incompleto" ∧
      (analyze_marketplace s h p pa im rf d (supplier_confidence_agent none)).flags =
        s.flags ++ h.flags ++ p.flags ++ pa.flags ++ im.flags ++ rf.flags ++ d.flags ++
          [Flag.mk "warning" "No se pudo completar el análisis de IA"] := by
  intro s h p pa im rf d
  refine ⟨rfl, rfl, ?_, ?_, rfl, rfl⟩
  · dsimp only [analyze_marketplace, supplier_confidence_agent]
    decide
  · dsimp only [analyze_marketplace, supplier_confidence_agent]
    decide

/-- Claim C6 counterexample: with the seller data absent the seller-trust
agent does not emit a neutral credit-less outcome — its `score_impact` is 15,
not 0. -/
theorem seller_trust_missing_seller_not_neutral :
    (seller_trust_agent 2025 ({} : MarketplaceRequest)).score_impact = 15 ∧
    ¬ (seller_trust_agent 2025 ({} : MarketplaceRequest)).score_impact = 0 := by
  decide

/-- Claim C6 (amended): with the seller absent, the seller-trust agent
returns no flags and `score_impact = 15`; with the seller present but
`join_date` absent, the account-age check emits no flag but contributes +10
to the score impact (the other checks are unaffected by the absence). -/
theorem seller_trust_missing_fields_amended :
    (∀ (y : Int) (req : MarketplaceRequest), req.seller = none →
      seller_trust_agent y req = ⟨[], 15⟩) ∧
    (∀ (y : Int), sellerJoinCheck y none = ([], 10)) := by
  constructor
  · intro y req hseller
    unfold seller_trust_agent
    rw [hseller]
  · intro y
    rfl

/-- Claim C6 witness: the amended statement at concrete inputs. -/
theorem seller_trust_missing_fields_amended_witness :
    seller_trust_agent 2026 ({} : MarketplaceRequest) = ⟨[], 15⟩ ∧
    sellerJoinCheck 2026 none = ([], 10) :=
  ⟨seller_trust_missing_fields_amended.1 2026 {} rfl,
   seller_trust_missing_fields_amended.2 2026⟩

/-- Claim C8 counterexample: `parse_price` keeps a dot as a decimal point,
so "$1.500" parses to 3/2, not to 1500 as the claim states. -/
theorem parse_price_dot_decimal_not_thousands :
    parse_price (some "$1.500") = some (3/2) ∧
    ¬ parse_price (some "$1.500") = some 1500 := by
  have h : parse_price (some "$1.500") = some (3/2) := by
    simp +decide [parse_price, pyLower, strContains, infixChars, startsWithChars,
      pyFloatDigitsDots, digitsToNat]
    norm_num
  refine ⟨h, ?_⟩
  rw [h]
  simp
  norm_num

/-- Claim C8 (amended): `parse_price` strips currency symbols, spaces and
commas but keeps a dot as a decimal point — "$1,500" parses to 1500 while
"$1.500" parses to 1.5; 'Free'/'Gratis' parse to 0; a string yielding no
digits parses to no value and the check is skipped. -/
theorem parse_price_amended :
    parse_price (some "$1,500") = some 1500 ∧
    parse_price (some "$1.500") = some (3/2) ∧
    parse_price (some "90 000 $") = some 90000 ∧
    parse_price (some "Free") = some 0 ∧
    parse_price (some "Gratis") = some 0 ∧
    parse_price (some "precio a convenir") = none ∧
    parse_price none = none := by
  refine ⟨?_, ?_, ?_, ?_, ?_, ?_, rfl⟩
  all_goals
    simp +decide [parse_price, pyLower, strContains, infixChars, startsWithChars,
      pyFloatDigitsDots, digitsToNat]
  all_goals norm_num

/-- Claim C10: for every `MarketplaceRequest` whose listing is absent or
whose listing description is empty or whitespace-only, the
description-quality agent returns exactly one flag (the "no description"
warning), `score_impact = 15` and `quality_score = 0`, performing none of
the other description checks. -/
theorem description_quality_empty_description :
    ∀ (req : MarketplaceRequest),
      (req.listing = none ∨ pyStripEmpty (listingDescription req) = true) →
      description_quality_agent req =
        ⟨[Flag.mk "warning" "Publicación sin descripción"], 15, 0⟩ ∧
      (description_quality_agent req).flags.length = 1 := by
  intro req hreq
  have hempty : pyStripEmpty (listingDescription req) = true := by
    rcases hreq with hnone | hws
    · simp [listingDescription, hnone, pyStripEmpty]
    · exact hws
  have hout : description_quality_agent req =
      ⟨[Flag.mk "warning" "Publicación sin descripción"], 15, 0⟩ := by
    simp [description_quality_agent, hempty]
  exact ⟨hout, by rw [hout]; rfl⟩

/-- Claim C10 witness: the theorem at a concrete request with no listing. -/
theorem description_quality_empty_description_witness :
    description_quality_agent ({} : MarketplaceRequest) =
      ⟨[Flag.mk "warning" "Publicación sin descripción"], 15, 0⟩ :=
  (description_quality_empty_description {} (Or.inl rfl)).1

/-- Claim C2: the `/analyze` score is `100 - guardImpact - reviewsImpact`
clamped to [0,100]; the tier thresholds are score ≥ 80 → safe,
50 ≤ score < 80 → suspicious, otherwise dangerous; and the price-comparison
agent's score impact is not part of the formula and is 0 on every path by
construction. -/
theorem analyze_page_formula_and_tiers :
    ∀ (g r p : GenericOutcome) (env : PriceCompEnv),
      (analyze_page g r p).score =
        max 0 (min 100 (100 - g.score_impact - r.score_impact)) ∧
      (80 ≤ (analyze_page g r p).score → (analyze_page g r p).risk_level = "safe") ∧
      (50 ≤ (analyze_page g r p).score ∧ (analyze_page g r p).score < 80 →
        (analyze_page g r p).risk_level = "suspicious") ∧
      ((analyze_page g r p).score < 50 → (analyze_page g r p).risk_level = "dangerous") ∧
      (price_comparison_agent env).score_impact = 0 := by
  intro g r p env
  have hrl : (analyze_page g r p).risk_level =
      (assess_risk ((analyze_page g r p).score)).1 := rfl
  refine ⟨rfl, ?_, ?_, ?_, ?_⟩
  · intro h80
    rw [hrl]
    unfold assess_risk
    rw [if_pos h80]
  · rintro ⟨h50, h80⟩
    rw [hrl]
    unfold assess_risk
    rw [if_neg (by omega), if_pos h50]
  · intro h50
    rw [hrl]
    unfold assess_risk
    rw [if_neg (by omega), if_neg (by omega)]
  · dsimp only [price_comparison_agent]
    split_ifs <;> rfl

/-- Claim C2 witness: the tier implications at concrete guard/reviews
impacts (scores 100, 70 and 40). -/
theorem analyze_page_formula_and_tiers_witness :
    (analyze_page ⟨[], 0⟩ ⟨[], 0⟩ ⟨[], 0⟩).risk_level = "safe" ∧
    (analyze_page ⟨[], 30⟩ ⟨[], 0⟩ ⟨[], 0⟩).risk_level = "suspicious" ∧
    (analyze_page ⟨[], 60⟩ ⟨[], 0⟩ ⟨[], 0⟩).risk_level = "dangerous" :=
  ⟨(analyze_page_formula_and_tiers ⟨[], 0⟩ ⟨[], 0⟩ ⟨[], 0⟩
      ⟨true, none, false, [], none⟩).2.1 (by decide),
   (analyze_page_formula_and_tiers ⟨[], 30⟩ ⟨[], 0⟩ ⟨[], 0⟩
      ⟨true, none, false, [], none⟩).2.2.1 ⟨by decide, by decide⟩,
   (analyze_page_formula_and_tiers ⟨[], 60⟩ ⟨[], 0⟩ ⟨[], 0⟩
      ⟨true, none, false, [], none⟩).2.2.2.1 (by decide)⟩

/-- Claim C3: for every combination of the guard's four judgments, the
returned `score_impact` is the table sum — 100 for phishing, 20/10 for
iframe risk with/without a purchase action, 20/10 likewise for CSRF risk,
40 for a suspiciously low price — clamped by the agent itself to at most
100; and in the same run the iframe/CSRF flags are `critical` exactly when a
purchase action is present and `warning` otherwise. -/
theorem guard_score_table_and_severity :
    ∀ (pd pb ir cr lp : Bool) (s1 s2 s3 s4 s5 : String),
      (ecommerce_guard_agent (some ⟨pd, s1, pb, s2⟩) (some ⟨ir, s3, cr, s4⟩)
          (some ⟨lp, s5⟩)).score_impact =
        min 100 ((if pd then 100 else 0) + (if ir then if pb then 20 else 10 else 0) +
          (if cr then if pb then 20 else 10 else 0) + (if lp then 40 else 0)) ∧
      (ir = true →
        Flag.mk (if pb then "critical" else "warning") ("Riesgo de Iframe: " ++ s3) ∈
          (ecommerce_guard_agent (some ⟨pd, s1, pb, s2⟩) (some ⟨ir, s3, cr, s4⟩)
            (some ⟨lp, s5⟩)).flags) ∧
      (cr = true →
        Flag.mk (if pb then "critical" else "warning")
            ("Falta protecci√≥n Anti-CSRF: " ++ s4) ∈
          (ecommerce_guard_agent (some ⟨pd, s1, pb, s2⟩) (some ⟨ir, s3, cr, s4⟩)
            (some ⟨lp, s5⟩)).flags) := by
  intro pd pb ir cr lp s1 s2 s3 s4 s5
  refine ⟨?_, ?_, ?_⟩
  · cases pd <;> cases pb <;> cases ir <;> cases cr <;> cases lp <;>
      simp [ecommerce_guard_agent]
  · intro hir
    subst hir
    cases pd <;> cases pb <;> cases cr <;> cases lp <;> simp [ecommerce_guard_agent]
  · intro hcr
    subst hcr
    cases pd <;> cases pb <;> cases ir <;> cases lp <;> simp [ecommerce_guard_agent]

/-- Claim C3 witness: both severity branches hold at a concrete run with
iframe and CSRF risk detected and a purchase action present. -/
theorem guard_score_table_and_severity_witness :
    Flag.mk "critical" ("Riesgo de Iframe: " ++ "iframes sin sandbox") ∈
      (ecommerce_guard_agent (some ⟨false, "ok", true, "hay boton"⟩)
        (some ⟨true, "iframes sin sandbox", true, "sin token"⟩)
        (some ⟨false, "precio normal"⟩)).flags ∧
    Flag.mk "critical" ("Falta protecci√≥n Anti-CSRF: " ++ "sin token") ∈
      (ecommerce_guard_agent (some ⟨false, "ok", true, "hay boton"⟩)
        (some ⟨true, "iframes sin sandbox", true, "sin token"⟩)
        (some ⟨false, "precio normal"⟩)).flags :=
  ⟨(guard_score_table_and_severity false true true true false
      "ok" "hay boton" "iframes sin sandbox" "sin token" "precio normal").2.1 rfl,
   (guard_score_table_and_severity false true true true false
      "ok" "hay boton" "iframes sin sandbox" "sin token" "precio normal").2.2 rfl⟩

/-- Claim C5: for a matched product the price-analysis penalty-tier ladder is
monotone — decreasing the price never decreases the tier severity (tiers
ordered high < fair < suspicious < very_suspicious < scam, the order the
agent's thresholds produce as the price decreases) — and in particular a
listing titled "iPhone 15" (market range 600-1000) priced at 0.2·min = $120
is classified "scam" with impact +30, at 0.4·min = $240 "very_suspicious"
with impact +20, and at the mid-market $800 "fair" with the credit impact
-5. -/
theorem price_tier_monotone :
    (∀ (nm : String) (minM maxM p q : ℚ), 0 < minM → minM ≤ maxM → 0 ≤ p → p ≤ q →
      tierSeverity (matchedPriceClass nm minM maxM q).tier ≤
        tierSeverity (matchedPriceClass nm minM maxM p).tier) ∧
    (price_analysis_agent
        ({ listing := some { title := some "iPhone 15", price := some "$120" } } :
          MarketplaceRequest)).price_tier = some "scam" ∧
    (price_analysis_agent
        ({ listing := some { title := some "iPhone 15", price := some "$120" } } :
          MarketplaceRequest)).score_impact = 30 ∧
    (price_analysis_agent
        ({ listing := some { title := some "iPhone 15", price := some "$240" } } :
          MarketplaceRequest)).price_tier = some "very_suspicious" ∧
    (price_analysis_agent
        ({ listing := some { title := some "iPhone 15", price := some "$240" } } :
          MarketplaceRequest)).score_impact = 20 ∧
    (price_analysis_agent
        ({ listing := some { title := some "iPhone 15", price := some "$800" } } :
          MarketplaceRequest)).price_tier = some "fair" ∧
    (price_analysis_agent
        ({ listing := some { title := some "iPhone 15", price := some "$800" } } :
          MarketplaceRequest)).score_impact = -5 := by
  have h120 : parse_price (some "$120") = some 120 := by
    simp +decide [parse_price, pyLower, strContains, infixChars, startsWithChars,
      pyFloatDigitsDots, digitsToNat]
  have h240 : parse_price (some "$240") = some 240 := by
    simp +decide [parse_price, pyLower, strContains, infixChars, startsWithChars,
      pyFloatDigitsDots, digitsToNat]
  have h800 : parse_price (some "$800") = some 800 := by
    simp +decide [parse_price, pyLower, strContains, infixChars, startsWithChars,
      pyFloatDigitsDots, digitsToNat]
  have hfind : find_product_match "iPhone 15" = some ("iphone 15", 600, 1000) := rfl
  refine ⟨?_, ?_, ?_, ?_, ?_, ?_, ?_⟩
  · intro nm minM maxM p q hmin hminmax hp hpq
    rcases eq_or_lt_of_le hp with hp0 | hp0
    · have htop : ∀ t, tierSeverity t ≤ 4 := by
        intro t
        unfold tierSeverity
        split_ifs <;> omega
      have hscam : (matchedPriceClass nm minM maxM p).tier = "scam" := by
        rw [← hp0]
        simp [matchedPriceClass]
      rw [hscam, show tierSeverity "scam" = 4 from by decide]
      exact htop _
    · unfold matchedPriceClass
      split_ifs <;> dsimp only <;> first | decide | (exfalso; linarith)
  all_goals
    simp +decide [price_analysis_agent, h120, h240, h800, hfind]
  all_goals norm_num [matchedPriceClass]

/-- Claim C5 witness: the monotonicity statement at the iPhone 15 market
range with prices $120 ≤ $800. -/
theorem price_tier_monotone_witness :
    tierSeverity (matchedPriceClass "iphone 15" 600 1000 800).tier ≤
      tierSeverity (matchedPriceClass "iphone 15" 600 1000 120).tier :=
  price_tier_monotone.1 "iphone 15" 600 1000 120 800 (by decide) (by decide)
    (by decide) (by decide)

/-- Claim C7 counterexample: with five reviews and summarized sentiment 85,
the reviews agent's returned `score_impact` is 0, not a negative reward: the
-5 sentiment credit is floored away by the final `max(0, score_impact)`. -/
theorem reviews_sentiment_reward_floored :
    (reviews_agent true false "" 5 (some ⟨85, "neutral"⟩) none "Trustpilot").score_impact
      = 0 ∧
    ¬ (reviews_agent true false "" 5 (some ⟨85, "neutral"⟩) none
        "Trustpilot").score_impact < 0 := by
  decide

/-- Claim C7 (amended): sentiment ≥ 70 adds an info flag and a -5 credit
which the final `max(0, ·)` floors, so the returned `score_impact` is 0 (not
negative); sentiment ≤ 30 returns +10; zero reviews found emits the
standalone warning flag with `score_impact` 0. -/
theorem reviews_score_policy_amended :
    (∀ (rc : Nat) (d : ReviewSummaryData) (tp : Option (String × ℚ)) (src : String),
      3 ≤ rc → 70 ≤ d.sentiment →
        (reviewsScoreStep rc (some d) tp src).score_impact = 0 ∧
        Flag.mk "info" ("✓ Reputación positiva en línea (puntuación: " ++
            toString d.sentiment ++ "/100)") ∈
          (reviewsScoreStep rc (some d) tp src).flags) ∧
    (∀ (rc : Nat) (d : ReviewSummaryData) (tp : Option (String × ℚ)) (src : String),
      3 ≤ rc → d.sentiment ≤ 30 →
        (reviewsScoreStep rc (some d) tp src).score_impact = 10) ∧
    (∀ (summary : Option ReviewSummaryData) (tp : Option (String × ℚ)) (src : String),
      (reviewsScoreStep 0 summary tp src).score_impact = 0 ∧
      Flag.mk "warning" "No se encontraron reseñas en línea para este negocio" ∈
        (reviewsScoreStep 0 summary tp src).flags) := by
  refine ⟨?_, ?_, ?_⟩
  · intro rc d tp src h3 h70
    constructor
    · simp [reviewsScoreStep, h3, h70]
    · simp [reviewsScoreStep, h3, h70]
  · intro rc d tp src h3 h30
    have h70 : ¬ 70 ≤ d.sentiment := by omega
    simp [reviewsScoreStep, h3, h70, h30]
  · intro summary tp src
    constructor
    · simp [reviewsScoreStep]
    · simp [reviewsScoreStep]

/-- Claim C7 witness: the amended branches at concrete sentiments 90 and
10 with four and three reviews. -/
theorem reviews_score_policy_amended_witness :
    ((reviewsScoreStep 4 (some ⟨90, "neutral"⟩) none "Google").score_impact = 0 ∧
      Flag.mk "info" ("✓ Reputación positiva en línea (puntuación: " ++
          toString (90 : Int) ++ "/100)") ∈
        (reviewsScoreStep 4 (some ⟨90, "neutral"⟩) none "Google").flags) ∧
    (reviewsScoreStep 3 (some ⟨10, "neutral"⟩) none "Google").score_impact = 10 :=
  ⟨reviews_score_policy_amended.1 4 ⟨90, "neutral"⟩ none "Google" (by decide) (by decide),
   reviews_score_policy_amended.2.1 3 ⟨10, "neutral"⟩ none "Google" (by decide) (by decide)⟩

end BodyCart
